import Mathlib

/-!
Verification of the provider-selection and prompt-trimming module
(`src/ai/providers.ts`): the `getSelectedModel` fallback table and the
recursive `trimPrompt` routine, embedded shallowly over `List Char`.

The external token encoder (js-tiktoken's `o200k_base`) is an out-of-scope
collaborator: it appears as an abstract function `enc : Str → Nat`.  The
repository's `RecursiveCharacterTextSplitter` is repo code whose source file
is not available, so it is modelled from the specification as a black box
(see `Splitter` below).
-/

/-- Text is modelled at the character level, as in the specification's
character-length reasoning (`len`, `slice`). -/
abbrev Str := List Char

/-- `MinChunkSize` from `providers.ts`: the 140-character floor. -/
def MinChunkSize : Nat := 140

/-- Modelled from the spec: the repository's `RecursiveCharacterTextSplitter`
(imported from `src/ai/text-splitter.ts`, a file not present in the sources)
is treated as a black box that, given a target chunk size (overlap is always
0 here), produces an ordered sequence of chunks, each a contiguous substring
of the input.  `trimPrompt` only ever uses the first chunk, taking empty text
when no chunk is produced, so the model records that first chunk
(`splitFirst`) together with the contiguous-substring guarantee
(`splitFirst_sub`).  No bound of the chunk's size by the requested chunk size
is assumed: the source explicitly guards against the splitter returning a
chunk as long as the whole input. -/
structure Splitter where
  splitFirst : Str → Nat → Str
  splitFirst_sub : ∀ s c, List.IsInfix (splitFirst s c) s

/-- `trimPrompt` from `providers.ts`, parametrised by the abstract token
encoder `enc` and the spec-modelled splitter `S`.  The `chunkSize`
computation is done in `Int`, as in JavaScript arithmetic, so that a large
overflow can drive it negative (and hence below `MinChunkSize`). -/
def trimPrompt (enc : Str → Nat) (S : Splitter) (prompt : Str)
    (contextSize : Nat) : Str :=
  if prompt = [] then
    []
  else if enc prompt ≤ contextSize then
    prompt
  else if (prompt.length : Int) - ((enc prompt - contextSize : Nat) : Int) * 3
      < (MinChunkSize : Int) then
    prompt.take MinChunkSize
  else if (S.splitFirst prompt
        ((prompt.length : Int)
          - ((enc prompt - contextSize : Nat) : Int) * 3).toNat).length
      = prompt.length then
    trimPrompt enc S
      (prompt.take ((prompt.length : Int)
        - ((enc prompt - contextSize : Nat) : Int) * 3).toNat) contextSize
  else
    trimPrompt enc S
      (S.splitFirst prompt
        ((prompt.length : Int)
          - ((enc prompt - contextSize : Nat) : Int) * 3).toNat) contextSize
termination_by prompt.length
decreasing_by
  · simp only [List.length_take]
    omega
  · have hle : (S.splitFirst prompt
        ((prompt.length : Int)
          - ((enc prompt - contextSize : Nat) : Int) * 3).toNat).length
        ≤ prompt.length := by
      obtain ⟨u, v, huv⟩ := S.splitFirst_sub prompt
        ((prompt.length : Int)
          - ((enc prompt - contextSize : Nat) : Int) * 3).toNat
      have := congrArg List.length huv
      simp only [List.length_append] at this
      omega
    omega

/-- Fuel-indexed transcription of `trimPrompt`: identical branch structure,
but each recursive call consumes one unit of fuel and exhausted fuel yields
`none`.  Used to state termination: a finite amount of fuel always suffices. -/
def trimPromptFuel (enc : Str → Nat) (S : Splitter) (fuel : Nat) (prompt : Str)
    (contextSize : Nat) : Option Str :=
  match fuel with
  | 0 => none
  | fuel + 1 =>
    if prompt = [] then
      some []
    else if enc prompt ≤ contextSize then
      some prompt
    else if (prompt.length : Int) - ((enc prompt - contextSize : Nat) : Int) * 3
        < (MinChunkSize : Int) then
      some (prompt.take MinChunkSize)
    else if (S.splitFirst prompt
          ((prompt.length : Int)
            - ((enc prompt - contextSize : Nat) : Int) * 3).toNat).length
        = prompt.length then
      trimPromptFuel enc S fuel
        (prompt.take ((prompt.length : Int)
          - ((enc prompt - contextSize : Nat) : Int) * 3).toNat) contextSize
    else
      trimPromptFuel enc S fuel
        (S.splitFirst prompt
          ((prompt.length : Int)
            - ((enc prompt - contextSize : Nat) : Int) * 3).toNat) contextSize

/-- Warning emitted by `getSelectedModel` when the azure handle is `null`. -/
def azureWarning : String :=
  "Azure API key not provided. Falling back to OpenAI model."

/-- Warning emitted by `getSelectedModel` when the mistral handle is `null`. -/
def mistralWarning : String :=
  "Mistral API key not provided. Falling back to OpenAI model."

/-- The module-level model handles of `providers.ts`: `o3MiniModel` and
`googleModel` are always constructed, while `azureModel` and `mistralModel`
are `null` when the corresponding credential is missing.  The handle type is
abstract (`α`). -/
structure ProviderState (α : Type) where
  o3MiniModel : α
  googleModel : α
  azureModel : Option α
  mistralModel : Option α

/-- `getSelectedModel` from `providers.ts`.  The TypeScript switch (sequential
comparison of `modelType` against the four case labels, with a default arm)
returns a handle and may log warnings via `console.warn`; the embedding
returns the handle — typed `Option α` to reflect that the stored
azure/mistral handles are nullable — together with the list of warnings
emitted during the call. -/
def getSelectedModel {α : Type} (st : ProviderState α) (modelType : String) :
    Option α × List String :=
  if modelType = "openai" then
    (some st.o3MiniModel, [])
  else if modelType = "google" then
    (some st.googleModel, [])
  else if modelType = "azure" then
    match st.azureModel with
    | some m => (some m, [])
    | none => (some st.o3MiniModel, [azureWarning])
  else if modelType = "mistral" then
    match st.mistralModel with
    | some m => (some m, [])
    | none => (some st.o3MiniModel, [mistralWarning])
  else
    (some st.o3MiniModel, [])

/-- A concrete encoder used for witnesses: one token per character. -/
def lenEnc : Str → Nat := fun s => s.length

/-- A concrete spec-conforming splitter used for witnesses: the first chunk is
the prefix of the requested chunk size. -/
def takeSplitter : Splitter where
  splitFirst s c := s.take c
  splitFirst_sub s c := ⟨[], s.drop c, by simp⟩

/-- A concrete encoder for the C5 counterexample: texts of at least 143
characters measure 2 tokens, everything else 1 token. -/
def cEnc : Str → Nat := fun s => if 143 ≤ s.length then 2 else 1

/-- A concrete spec-conforming splitter for the C5 counterexample: its first
chunk is always the 50-character prefix (a contiguous substring, as the spec
requires; the spec does not force chunks to exhaust the chunk size). -/
def cSplit : Splitter where
  splitFirst s _ := s.take 50
  splitFirst_sub s _ := ⟨[], s.drop 50, by simp⟩

/-- A concrete 143-character text for the C5 counterexample. -/
def cText : Str := List.replicate 143 'a'

/-- A small concrete text used by several witnesses. -/
def wText : Str := ['a', 'b', 'c']

/-- A concrete provider state (over `Nat` handles) with no azure or mistral
credential configured, used by witnesses. -/
def wState : ProviderState Nat where
  o3MiniModel := 7
  googleModel := 8
  azureModel := none
  mistralModel := none

/-- A chunk produced by the splitter is a contiguous substring of the input,
hence never longer than the input. -/
theorem splitFirst_length_le (S : Splitter) (s : Str) (c : Nat) :
    (S.splitFirst s c).length ≤ s.length := by
  obtain ⟨u, v, huv⟩ := S.splitFirst_sub s c
  have := congrArg List.length huv
  simp only [List.length_append] at this
  omega

/-- Fuel soundness: any fuel exceeding the character length of the prompt is
enough for `trimPromptFuel` to reach the same result as `trimPrompt`. -/
theorem trimPromptFuel_sound (enc : Str → Nat) (S : Splitter) (contextSize : Nat) :
    ∀ (fuel : Nat) (prompt : Str), prompt.length < fuel →
      trimPromptFuel enc S fuel prompt contextSize
        = some (trimPrompt enc S prompt contextSize) := by
  intro fuel
  induction fuel with
  | zero => intro p hp; omega
  | succ fuel ih =>
    intro p hp
    rw [trimPromptFuel, trimPrompt]
    by_cases h1 : p = []
    · simp [h1]
    · by_cases h2 : enc p ≤ contextSize
      · simp [h1, h2]
      · by_cases h3 : (p.length : Int) - ((enc p - contextSize : Nat) : Int) * 3
            < (MinChunkSize : Int)
        · simp [h1, h2, h3]
        · by_cases h4 : (S.splitFirst p
              ((p.length : Int)
                - ((enc p - contextSize : Nat) : Int) * 3).toNat).length
              = p.length
          · simp only [if_neg h1, if_neg h2, if_neg h3, if_pos h4]
            apply ih
            simp only [List.length_take]
            omega
          · simp only [if_neg h1, if_neg h2, if_neg h3, if_neg h4]
            apply ih
            have := splitFirst_length_le S p
              ((p.length : Int)
                - ((enc p - contextSize : Nat) : Int) * 3).toNat
            omega

/-- A prompt already measuring within budget is returned unchanged (this also
covers the empty prompt, which is returned before measuring). -/
theorem trimPrompt_of_enc_le (enc : Str → Nat) (S : Splitter) (prompt : Str)
    (contextSize : Nat) (h : enc prompt ≤ contextSize) :
    trimPrompt enc S prompt contextSize = prompt := by
  rw [trimPrompt]
  by_cases h1 : prompt = []
  · simp [h1]
  · simp [h1, h]

/-- A prompt of at most `MinChunkSize` characters is always returned
unchanged: either it is empty, or it measures within budget, or the overflow
drives the chunk-size estimate strictly below the floor and the 140-character
clip returns the whole prompt. -/
theorem trimPrompt_of_length_le (enc : Str → Nat) (S : Splitter) (prompt : Str)
    (contextSize : Nat) (h : prompt.length ≤ MinChunkSize) :
    trimPrompt enc S prompt contextSize = prompt := by
  rw [trimPrompt]
  by_cases h1 : prompt = []
  · simp [h1]
  · by_cases h2 : enc prompt ≤ contextSize
    · simp [h1, h2]
    · have h3 : (prompt.length : Int)
          - ((enc prompt - contextSize : Nat) : Int) * 3 < (MinChunkSize : Int) := by
        omega
      simp only [if_neg h1, if_neg h2, if_pos h3]
      exact List.take_of_length_le h

/-- Every result of `trimPrompt` either measures within budget (base case) or
has at most `MinChunkSize` characters (floor case). -/
theorem trimPrompt_within_or_floor (enc : Str → Nat) (S : Splitter) (prompt : Str)
    (contextSize : Nat) :
    enc (trimPrompt enc S prompt contextSize) ≤ contextSize
      ∨ (trimPrompt enc S prompt contextSize).length ≤ MinChunkSize := by
  induction prompt, contextSize using trimPrompt.induct enc S with
  | case1 b =>
    right
    rw [trimPrompt]
    simp
  | case2 p b h1 h2 =>
    left
    rw [trimPrompt]
    simp [h1, h2]
  | case3 p b h1 h2 h3 =>
    right
    rw [trimPrompt]
    simp only [if_neg h1, if_neg h2, if_pos h3, List.length_take]
    omega
  | case4 p b h1 h2 h3 h4 ih =>
    rw [trimPrompt]
    simpa only [if_neg h1, if_neg h2, if_neg h3, if_pos h4] using ih
  | case5 p b h1 h2 h3 h4 ih =>
    rw [trimPrompt]
    simpa only [if_neg h1, if_neg h2, if_neg h3, if_neg h4] using ih

/-- C1: `trimPrompt` terminates for every finite input and budget.  For any
encoder and any spec-conforming splitter, the fuel-indexed transcription run
with any fuel exceeding the input's character length never exhausts its fuel
and agrees with `trimPrompt` (whose well-founded definition on
`prompt.length` is itself a machine-checked termination certificate): the
recursion reaches the base case or the 140-character floor within at most
`prompt.length` recursive steps. -/
theorem trimPrompt_terminates (enc : Str → Nat) (S : Splitter) (prompt : Str)
    (contextSize fuel : Nat) (h : prompt.length < fuel) :
    trimPromptFuel enc S fuel prompt contextSize
      = some (trimPrompt enc S prompt contextSize) :=
  trimPromptFuel_sound enc S contextSize fuel prompt h

/-- Witness for C1 at a concrete input: fuel 4 suffices for the 3-character
text `"abc"` with budget 0. -/
theorem trimPrompt_terminates_witness :
    wText.length < 4 ∧
      trimPromptFuel lenEnc takeSplitter 4 wText 0
        = some (trimPrompt lenEnc takeSplitter wText 0) :=
  ⟨by decide, trimPrompt_terminates lenEnc takeSplitter wText 0 4 (by decide)⟩

/-- C2: for every input text and every budget, the result of `trimPrompt` is
never longer (in characters) than the input. -/
theorem trimPrompt_length_le_input (enc : Str → Nat) (S : Splitter)
    (prompt : Str) (contextSize : Nat) :
    (trimPrompt enc S prompt contextSize).length ≤ prompt.length := by
  induction prompt, contextSize using trimPrompt.induct enc S with
  | case1 b =>
    rw [trimPrompt]
    simp
  | case2 p b h1 h2 =>
    rw [trimPrompt]
    simp [h1, h2]
  | case3 p b h1 h2 h3 =>
    rw [trimPrompt]
    simp only [if_neg h1, if_neg h2, if_pos h3, List.length_take]
    omega
  | case4 p b h1 h2 h3 h4 ih =>
    rw [trimPrompt]
    simp only [if_neg h1, if_neg h2, if_neg h3, if_pos h4]
    refine le_trans ih ?_
    simp [List.length_take]
  | case5 p b h1 h2 h3 h4 ih =>
    rw [trimPrompt]
    simp only [if_neg h1, if_neg h2, if_neg h3, if_neg h4]
    exact le_trans ih (splitFirst_length_le S p _)

/-- C3: a text whose measured token count is within budget is returned
unchanged. -/
theorem trimPrompt_id_of_within_budget (enc : Str → Nat) (S : Splitter)
    (prompt : Str) (contextSize : Nat) (h : enc prompt ≤ contextSize) :
    trimPrompt enc S prompt contextSize = prompt :=
  trimPrompt_of_enc_le enc S prompt contextSize h

/-- Witness for C3 at a concrete input: `"abc"` measures 3 ≤ 5 tokens and is
returned unchanged. -/
theorem trimPrompt_id_of_within_budget_witness :
    lenEnc wText ≤ 5 ∧ trimPrompt lenEnc takeSplitter wText 5 = wText :=
  ⟨by decide, trimPrompt_id_of_within_budget lenEnc takeSplitter wText 5 (by decide)⟩

/-- C4: when the token count exceeds the budget and the estimated character
target `len(text) - 3 * (measured - budget)` falls below the 140-character
minimum, `trimPrompt` returns exactly the first 140 characters of the
text (`MinChunkSize = 140`). -/
theorem trimPrompt_floor_slice (enc : Str → Nat) (S : Splitter) (prompt : Str)
    (contextSize : Nat) (hover : contextSize < enc prompt)
    (hsmall : (prompt.length : Int)
      - ((enc prompt - contextSize : Nat) : Int) * 3 < (MinChunkSize : Int)) :
    trimPrompt enc S prompt contextSize = prompt.take MinChunkSize := by
  have h2 : ¬ enc prompt ≤ contextSize := by omega
  rw [trimPrompt]
  by_cases h1 : prompt = []
  · simp [h1]
  · simp only [if_neg h1, if_neg h2, if_pos hsmall]

/-- Witness for C4 at a concrete input: `"abc"` with budget 0 measures 3
tokens, the character target is 3 − 9 < 140, and the result is the
140-character clip of `"abc"`. -/
theorem trimPrompt_floor_slice_witness :
    0 < lenEnc wText ∧
      (wText.length : Int) - ((lenEnc wText - 0 : Nat) : Int) * 3
        < (MinChunkSize : Int) ∧
      trimPrompt lenEnc takeSplitter wText 0 = wText.take MinChunkSize :=
  ⟨by decide, by decide,
    trimPrompt_floor_slice lenEnc takeSplitter wText 0 (by decide) (by decide)⟩

set_option maxRecDepth 16000 in
/-- C5 is refuted at a concrete input: with budget 1, a 143-character text
measuring 2 tokens, and a spec-conforming splitter whose first chunk is the
50-character prefix, `trimPrompt` reaches the splitter branch (the character
target is 143 − 3 = 140, not below the floor), recurses on the 50-character
chunk, finds it within budget, and returns it — a result of length 50, not
140.  The claim's "exactly 140" does not follow from the black-box splitter
interface: the first chunk may be far shorter than the requested chunk
size. -/
theorem trimPrompt_budget_one_not_140 :
    140 < cText.length ∧ 1 < cEnc cText ∧
      (trimPrompt cEnc cSplit cText 1).length ≠ 140 := by
  refine ⟨by decide, by decide, ?_⟩
  have h := trimPromptFuel_sound cEnc cSplit 1 144 cText (by decide)
  have h2 : trimPromptFuel cEnc cSplit 144 cText 1
      = some (List.replicate 50 'a') := by decide
  rw [h2] at h
  have h3 := Option.some.inj h
  rw [← h3]
  decide

/-- C5 (amended): for budget 1, the result of `trimPrompt` either measures
within the budget of 1 token or has at most 140 characters — its length need
not be exactly 140 even when the input is longer than 140 characters and
measures more than one token; and a text of at most 140 characters is
returned unchanged (hence the result then equals the input). -/
theorem trimPrompt_budget_one_bound (enc : Str → Nat) (S : Splitter)
    (prompt : Str) :
    (enc (trimPrompt enc S prompt 1) ≤ 1
      ∨ (trimPrompt enc S prompt 1).length ≤ 140) ∧
    (prompt.length ≤ 140 → trimPrompt enc S prompt 1 = prompt) := by
  constructor
  · have h := trimPrompt_within_or_floor enc S prompt 1
    simpa [MinChunkSize] using h
  · intro h
    exact trimPrompt_of_length_le enc S prompt 1 (by simpa [MinChunkSize] using h)

/-- Witness for C5's amended theorem at a concrete input: the 3-character
text `"abc"` with budget 1. -/
theorem trimPrompt_budget_one_bound_witness :
    (lenEnc (trimPrompt lenEnc takeSplitter wText 1) ≤ 1
      ∨ (trimPrompt lenEnc takeSplitter wText 1).length ≤ 140) ∧
    (wText.length ≤ 140 ∧ trimPrompt lenEnc takeSplitter wText 1 = wText) :=
  ⟨(trimPrompt_budget_one_bound lenEnc takeSplitter wText).1,
    by decide,
    (trimPrompt_budget_one_bound lenEnc takeSplitter wText).2 (by decide)⟩

/-- C6: with no azure credential configured, selecting `azure` yields the
same handle as selecting `openai` and emits exactly one warning; likewise
for an unconfigured mistral provider.  The embedding is a total function, so
no error is raised in either case. -/
theorem getSelectedModel_fallback {α : Type} (st : ProviderState α)
    (ha : st.azureModel = none) (hm : st.mistralModel = none) :
    ((getSelectedModel st "azure").1 = (getSelectedModel st "openai").1
      ∧ (getSelectedModel st "azure").2.length = 1) ∧
    ((getSelectedModel st "mistral").1 = (getSelectedModel st "openai").1
      ∧ (getSelectedModel st "mistral").2.length = 1) := by
  simp [getSelectedModel, ha, hm]

/-- Witness for C6 at a concrete provider state with both optional
credentials absent. -/
theorem getSelectedModel_fallback_witness :
    wState.azureModel = none ∧ wState.mistralModel = none ∧
    (((getSelectedModel wState "azure").1 = (getSelectedModel wState "openai").1
        ∧ (getSelectedModel wState "azure").2.length = 1) ∧
      ((getSelectedModel wState "mistral").1 = (getSelectedModel wState "openai").1
        ∧ (getSelectedModel wState "mistral").2.length = 1)) :=
  ⟨rfl, rfl, getSelectedModel_fallback wState rfl rfl⟩

/-- C7: the empty text is returned unchanged, for every budget, before any
measuring or splitting. -/
theorem trimPrompt_empty (enc : Str → Nat) (S : Splitter) (contextSize : Nat) :
    trimPrompt enc S [] contextSize = [] := by
  rw [trimPrompt]
  simp

/-- C8: any provider identifier outside the enumerated set falls through to
the default arm: the openai handle is returned and no warning is emitted. -/
theorem getSelectedModel_default_openai {α : Type} (st : ProviderState α)
    (s : String) (h1 : s ≠ "openai") (h2 : s ≠ "google") (h3 : s ≠ "azure")
    (h4 : s ≠ "mistral") :
    (getSelectedModel st s).1 = (getSelectedModel st "openai").1
      ∧ (getSelectedModel st s).2 = [] := by
  simp [getSelectedModel, h1, h2, h3, h4]

/-- Witness for C8 at the concrete identifier `"unknown-value"`. -/
theorem getSelectedModel_default_openai_witness :
    ("unknown-value" ≠ "openai" ∧ "unknown-value" ≠ "google"
      ∧ "unknown-value" ≠ "azure" ∧ "unknown-value" ≠ "mistral") ∧
    ((getSelectedModel wState "unknown-value").1
        = (getSelectedModel wState "openai").1
      ∧ (getSelectedModel wState "unknown-value").2 = []) :=
  ⟨⟨by decide, by decide, by decide, by decide⟩,
    getSelectedModel_default_openai wState "unknown-value"
      (by decide) (by decide) (by decide) (by decide)⟩

/-- C9: `trimPrompt` is idempotent for every budget: every result either
already measures within budget (and the base case returns it unchanged) or
has at most 140 characters (and is returned unchanged, the floor branch
re-clipping it to itself if it is over budget). -/
theorem trimPrompt_idempotent (enc : Str → Nat) (S : Splitter) (prompt : Str)
    (contextSize : Nat) :
    trimPrompt enc S (trimPrompt enc S prompt contextSize) contextSize
      = trimPrompt enc S prompt contextSize := by
  rcases trimPrompt_within_or_floor enc S prompt contextSize with h | h
  · exact trimPrompt_of_enc_le enc S _ contextSize h
  · exact trimPrompt_of_length_le enc S _ contextSize h

/-- C10: `getSelectedModel` never returns a `null` handle for any of the four
provider identifiers, even though the stored azure and mistral handles may
themselves be `null`: every branch that could yield `null` is guarded and
substitutes the always-constructed openai handle. -/
theorem getSelectedModel_never_null {α : Type} (st : ProviderState α) :
    (getSelectedModel st "openai").1 ≠ none
      ∧ (getSelectedModel st "google").1 ≠ none
      ∧ (getSelectedModel st "azure").1 ≠ none
      ∧ (getSelectedModel st "mistral").1 ≠ none := by
  refine ⟨by simp [getSelectedModel], by simp [getSelectedModel], ?_, ?_⟩
  · cases ha : st.azureModel <;> simp [getSelectedModel, ha]
  · cases hm : st.mistralModel <;> simp [getSelectedModel, hm]
